import Mathlib

/-!
Verification of the OSINT correlation & analysis pipeline.

This file gives a shallow embedding, in Lean 4, of the core services of the
repository (tool dispatcher, run orchestrator, cross-reference detector,
analysis engine) and proves the behavioural properties stated in the design
document against that embedding.

Conventions of the embedding:
* Python dicts holding schema-less JSON (tool raw payloads, parsed LLM
  output) are modelled by the inductive type `JVal`; dict lookup is
  association-list lookup on the field list of `JVal.obj`.
* External effects are parameters: a tool adapter is a function
  `ToolClass → String → Except String FindingDict` (exception = `.error`),
  the inference backend response is an `Option String`
  (`none` = request failure / timeout).
* The record store is an explicit `Db` value holding the committed rows;
  SQLAlchemy sessions with `autocommit=False` discard uncommitted work when
  the request-scoped session is closed, so a service function that returns
  without committing leaves the committed `Db` unchanged.
-/

namespace OsintTool

/-- Schema-less JSON values, as produced by `json.loads` and carried in the
`raw_data` payload of findings. -/
inductive JVal where
  | str (s : String)
  | num (n : Int)
  | jbool (b : Bool)
  | null
  | arr (elems : List JVal)
  | obj (fields : List (String × JVal))

/-- Association lookup on a JSON object field list: `d.get(key)` for the
first matching key (Python dicts have unique keys; first match is faithful). -/
def jlookup (fields : List (String × JVal)) (key : String) : Option JVal :=
  match fields with
  | [] => none
  | (k, v) :: rest => if k = key then some v else jlookup rest key

/-- The normalized finding dict every tool adapter returns
(`base_tool.py` `_make_finding`, and the synthetic error finding of the
dispatcher): keys `tool_name, category, raw_data, summary, severity, tags`. -/
structure FindingDict where
  tool_name : String
  category : String
  raw_data : List (String × JVal)
  summary : String
  severity : String
  tags : List String

/-- A tool adapter class as seen by the dispatcher: its `name` and
`category` properties and its `premium_only` class attribute
(`base_tool.py` line 12: default `False`). -/
structure ToolClass where
  name : String
  category : String
  premium_only : Bool
deriving DecidableEq, Repr

/-! The concrete adapter classes, with `name`, `category`, `premium_only`
taken from each adapter source file. -/
def PhoneInfogaTool : ToolClass := ⟨"PhoneInfoga", "phone", false⟩

def NumVerifyTool : ToolClass := ⟨"NumVerify", "phone", false⟩

def HoleheTool : ToolClass := ⟨"Holehe", "email", false⟩

def HIBPTool : ToolClass := ⟨"HaveIBeenPwned", "email", true⟩

def EmailRepTool : ToolClass := ⟨"EmailRep", "email", true⟩

def SherlockTool : ToolClass := ⟨"Sherlock", "username", false⟩

def WHOISTool : ToolClass := ⟨"WHOIS", "network", false⟩

def DNSDumpsterTool : ToolClass := ⟨"DNSDumpster", "network", false⟩

def VirusTotalTool : ToolClass := ⟨"VirusTotal", "network", false⟩

def IPGeoTool : ToolClass := ⟨"IP-Geo", "network", true⟩

def DomainRepTool : ToolClass := ⟨"DomainRep", "network", true⟩

def NameOSINTTool : ToolClass := ⟨"NameOSINT", "name", true⟩

def ExifToolTool : ToolClass := ⟨"ExifTool", "general", false⟩

/-- Model of `tool_dispatcher.py` lines 22-31: map entity types to ordered tool
lists (an absent key yields the empty list, as `dict.get(_, [])` does). -/
def ENTITY_TOOL_MAP (entity_type : String) : List ToolClass :=
  if entity_type = "phone" then [PhoneInfogaTool, NumVerifyTool]
  else if entity_type = "email" then [HoleheTool, HIBPTool, EmailRepTool, VirusTotalTool]
  else if entity_type = "username" then [SherlockTool]
  else if entity_type = "domain" then [WHOISTool, DNSDumpsterTool, VirusTotalTool, DomainRepTool]
  else if entity_type = "ip" then [WHOISTool, IPGeoTool]
  else if entity_type = "name" then [NameOSINTTool]
  else if entity_type = "social" then [SherlockTool]
  else if entity_type = "file" then [ExifToolTool]
  else []

/-- The entity types that have a mapping in `ENTITY_TOOL_MAP`. -/
def mappedEntityTypes : List String :=
  ["phone", "email", "username", "domain", "ip", "name", "social", "file"]

/-- The tool classes actually invoked by a dispatch: the mapped list with
premium-only tools filtered out for free users
(`tool_dispatcher.py` lines 43-52). -/
def dispatchTools (entity_type : String) (is_premium : Bool) : List ToolClass :=
  (ENTITY_TOOL_MAP entity_type).filter (fun cls => !cls.premium_only || is_premium)

/-- The synthetic finding the dispatcher builds when a tool raises
(`tool_dispatcher.py` lines 70-77). -/
def errorFinding (tool : ToolClass) (e : String) : FindingDict :=
  { tool_name := tool.name
    category := tool.category
    raw_data := [("error", JVal.str e)]
    summary := "Tool " ++ tool.name ++ " failed: " ++ e
    severity := "error"
    tags := ["error", "tool-failure"] }

/-- Model of `ToolDispatcher.dispatch` (`tool_dispatcher.py` lines 37-79), parametric
in the adapter behaviour `run`; a raising adapter is `Except.error`.
The Python early return on an empty mapped list equals mapping over the
empty filtered list. -/
def ToolDispatcher.dispatch (run : ToolClass → String → Except String FindingDict)
    (entity_type entity_value : String) (is_premium : Bool) : List FindingDict :=
  (dispatchTools entity_type is_premium).map (fun tool =>
    match run tool entity_value with
    | Except.ok result => result
    | Except.error e => errorFinding tool e)

/-! ## Record store -/
/-- An `Entity` row (`models/entity.py`): the fields the core services read. -/
structure EntityRec where
  id : String
  project_id : String
  entity_type : String
  value : String
  label : String
  status : String
deriving DecidableEq, Repr

/-- A `Project` row (`models/project.py`): the fields the core services read. -/
structure ProjectRec where
  id : String
  name : String
  status : String
deriving DecidableEq, Repr

/-- A cross-reference link dict (`cross_ref.py` lines 54-61). -/
structure CrossRefLink where
  entity_id : String
  entity_type : String
  entity_value : String
  project_id : String
  project_name : String
  match_reason : String
deriving DecidableEq, Repr

/-- A stored `Finding` row (`models/finding.py` as written by
`osint_runner.py` lines 88-97). -/
structure FindingRow where
  entity_id : String
  tool_name : String
  tool_category : String
  raw_data : Option (List (String × JVal))
  summary : String
  severity : String
  tags : Option (List String)
  links : Option (List CrossRefLink)

/-- A stored `Pattern` row (`models/pattern.py` as written by
`llm_analyzer.py` lines 320-358). Confidence is an exact rational. -/
structure PatternRow where
  project_id : String
  pattern_type : String
  description : String
  entities_involved : List String
  confidence : ℚ
  llm_model : String
  raw_llm_output : String
deriving DecidableEq, Repr

/-- The committed contents of the record store. -/
structure Db where
  projects : List ProjectRec
  entities : List EntityRec
  findings : List FindingRow
  patterns : List PatternRow

/-! ## Cross-reference detector (`cross_ref.py`) -/
/-- Python `str.lower()` (ASCII case folding suffices for this data). -/
def pyLower (s : String) : String := String.mk (s.data.map Char.toLower)

/-- The whitespace Python `str.strip()` removes. -/
def isStripChar (c : Char) : Bool :=
  c = ' ' ∨ c = '\t' ∨ c = '\n' ∨ c = '\r' ∨ c = Char.ofNat 11 ∨ c = Char.ofNat 12

/-- Python `str.strip()`. -/
def pyStrip (s : String) : String :=
  String.mk (((s.data.dropWhile isStripChar).reverse.dropWhile isStripChar).reverse)

/-- Python `c in s` for a single-character needle. -/
def pyContainsChar (s : String) (c : Char) : Bool := s.data.contains c

/-- Model of the inner `add` of `_build_search_pairs` (`cross_ref.py` lines 79-84): strip
the value, key by `(etype, lowercased value)`, first reason wins. The pairs
dict is an insertion-ordered association list. -/
def addPair (pairs : List ((String × String) × String)) (etype val reason : String) :
    List ((String × String) × String) :=
  let val := pyStrip val
  if val ≠ "" then
    let key := (etype, pyLower val)
    if pairs.all (fun p => p.1 ≠ key) then pairs ++ [(key, reason)] else pairs
  else pairs

/-- The items Python iterates for `for e in (emails or [])` after the
`isinstance(emails, str)` wrap (`cross_ref.py` lines 95-97); a truthy
non-iterable value would raise in Python, which the caller converts to
"no links", so it is modelled as no candidates. -/
def emailItems (raw : List (String × JVal)) : List JVal :=
  match jlookup raw "emails" with
  | some (JVal.str s) => [JVal.str s]
  | some (JVal.arr l) => l
  | _ => []

/-- The items Python iterates for `for p in (profiles or [])`
(`cross_ref.py` lines 119-120); iterating a string yields its characters
as one-character strings. -/
def profileItems (raw : List (String × JVal)) : List JVal :=
  match jlookup raw "profiles" with
  | some (JVal.arr l) => l
  | some (JVal.str s) => s.data.map (fun c => JVal.str (String.mk [c]))
  | _ => []

/-- Mining one finding's raw payload for candidate search pairs
(`cross_ref.py` lines 90-122). -/
def minePairsFromFinding (entity : EntityRec)
    (pairs0 : List ((String × String) × String)) (finding : FindingDict) :
    List ((String × String) × String) :=
  let raw := finding.raw_data
  let tool := finding.tool_name
  -- WHOIS emails field
  let pairs := (emailItems raw).foldl (fun pairs e =>
      match e with
      | JVal.str s =>
          if pyContainsChar s '@' ∧ s.length < 255 then
            addPair pairs "email" s ("Email from " ++ tool ++ " WHOIS data")
          else pairs
      | _ => pairs) pairs0
  -- WHOIS org / registrant name
  let pairs := ["org", "name"].foldl (fun pairs key =>
      match jlookup raw key with
      | some (JVal.str v) =>
          if 3 < v.length ∧ v.length < 120 then
            addPair pairs "name" v ("Org/name from " ++ tool ++ " WHOIS data")
          else pairs
      | _ => pairs) pairs
  -- IP-Geo: the queried IP itself
  let pairs :=
      match jlookup raw "query" with
      | some (JVal.str ip_val) =>
          if ip_val ≠ entity.value then
            addPair pairs "ip" ip_val ("IP from " ++ tool)
          else pairs
      | _ => pairs
  -- VirusTotal / DomainRep: domain
  let pairs :=
      match jlookup raw "resource" with
      | some (JVal.str res) =>
          if pyContainsChar res '.' ∧ res ≠ entity.value then
            addPair pairs "domain" res ("Domain from " ++ tool)
          else pairs
      | _ => pairs
  -- EmailRep profiles (social handles)
  (profileItems raw).foldl (fun pairs p =>
      match p with
      | JVal.str s =>
          if s.length < 100 then
            addPair pairs "username" s ("Profile from " ++ tool ++ " EmailRep")
          else pairs
      | _ => pairs) pairs

/-- Model of `CrossRefDetector._build_search_pairs` (`cross_ref.py` lines 71-124):
the primary pair is the entity itself, then each finding is mined in order.
Each element is `((etype, lowercased value), reason)`, matching the
`pairs.items()` triples of the source. -/
def CrossRefDetector.build_search_pairs (entity : EntityRec)
    (raw_findings : List FindingDict) : List ((String × String) × String) :=
  let pairs := addPair [] entity.entity_type entity.value ("Shared " ++ entity.entity_type)
  raw_findings.foldl (minePairsFromFinding entity) pairs

/-- The record-store query of `cross_ref.py` lines 36-45: join entities to
their projects and filter by case-insensitive value match, matching type,
different project, project not archived. -/
def queryMatches (db : Db) (entity : EntityRec) (etype evalue : String) :
    List (EntityRec × ProjectRec) :=
  (db.entities.flatMap (fun ent => db.projects.map (fun proj => (ent, proj)))).filter
    (fun ep =>
      ep.1.project_id = ep.2.id
      ∧ pyLower ep.1.value = pyLower evalue
      ∧ ep.1.entity_type = etype
      ∧ ep.1.project_id ≠ entity.project_id
      ∧ ep.2.status ≠ "archived")

/-- The inner match loop of `detect_for_entity` (`cross_ref.py` lines
51-61): append a link for each matched row whose entity id has not been
seen, threading `(links, seen_entity_ids)`. -/
def crossRefCollect (reason : String) :
    List (EntityRec × ProjectRec) → List CrossRefLink × List String →
    List CrossRefLink × List String
  | [], acc => acc
  | (ent, proj) :: rest, (links, seen) =>
      if ent.id ∈ seen then crossRefCollect reason rest (links, seen)
      else crossRefCollect reason rest
        (links ++ [{ entity_id := ent.id, entity_type := ent.entity_type,
                     entity_value := ent.value, project_id := proj.id,
                     project_name := proj.name, match_reason := reason }],
         ent.id :: seen)

/-- Model of `CrossRefDetector.detect_for_entity` (`cross_ref.py` lines 23-69). -/
def CrossRefDetector.detect_for_entity (db : Db) (entity : EntityRec)
    (raw_findings : List FindingDict) : List CrossRefLink :=
  let search_pairs := CrossRefDetector.build_search_pairs entity raw_findings
  (search_pairs.foldl (fun acc pair =>
      crossRefCollect pair.2 (queryMatches db entity pair.1.1 pair.1.2) acc)
    ([], [])).1

/-- The property C3 asserts of every returned link, relative to the source
entity and the store contents. -/
def GoodLink (db : Db) (entity : EntityRec) (l : CrossRefLink) : Prop :=
  l.project_id ≠ entity.project_id
  ∧ (∃ p ∈ db.projects, p.id = l.project_id ∧ p.status ≠ "archived")
  ∧ l.entity_id ≠ entity.id

/-- A row returned by the cross-reference query: where it came from and
which filters it passed. -/
def RowOk (db : Db) (entity : EntityRec) (ep : EntityRec × ProjectRec) : Prop :=
  ep.1 ∈ db.entities ∧ ep.2 ∈ db.projects ∧ ep.1.project_id = ep.2.id
  ∧ ep.1.project_id ≠ entity.project_id ∧ ep.2.status ≠ "archived"

/-- The invariant threaded through the match-collection loop: every
collected link is good, link entity ids are distinct, and every collected
link's entity id has been recorded in `seen`. -/
def CollectInv (db : Db) (entity : EntityRec)
    (st : List CrossRefLink × List String) : Prop :=
  (∀ l ∈ st.1, GoodLink db entity l)
  ∧ (st.1.map (fun l => l.entity_id)).Nodup
  ∧ (∀ l ∈ st.1, l.entity_id ∈ st.2)

/-- Concrete store for the C3 witness: the source entity in project `p1`,
an exact case-insensitive match in active project `p2`, and a match in
archived project `p3`. -/
def wEntity : EntityRec := ⟨"e1", "p1", "email", "a@b.com", "", "pending"⟩

def wDb : Db :=
  { projects := [⟨"p1", "Proj1", "active"⟩, ⟨"p2", "Proj2", "active"⟩,
                 ⟨"p3", "Proj3", "archived"⟩],
    entities := [wEntity, ⟨"e2", "p2", "email", "A@B.com", "", "complete"⟩,
                 ⟨"e3", "p3", "email", "a@b.com", "", "complete"⟩],
    findings := [], patterns := [] }

/-! ## Run orchestrator (`osint_runner.py`) -/
/-- Result of a single-entity run (`osint_runner.py` lines 55, 76, 104-107). -/
structure RunEntityResult where
  findings_created : Nat
  message : String
deriving DecidableEq, Repr

/-- Result of an investigation-wide run (`osint_runner.py` lines 24-28, 42-49). -/
structure RunProjectResult where
  entities_processed : Nat
  findings_created : Nat
  message : String
deriving DecidableEq, Repr

/-- The runner's environment: the caller tier and the outcome of the
`self.dispatcher.dispatch(...)` call. `Except.error` models the dispatch
call itself raising (the case the `try` of `_run_single_entity` lines 68-76
anticipates); the pure `ToolDispatcher.dispatch` above gives the canonical
never-raising instantiation `fun t v p => Except.ok (ToolDispatcher.dispatch run t v p)`. -/
structure RunnerEnv where
  is_premium : Bool
  dispatchResult : String → String → Bool → Except String (List FindingDict)

/-- Model of `entity.status = s; db.commit()`: update the stored row(s) with this id. -/
def setEntityStatus (db : Db) (eid status : String) : Db :=
  { db with entities :=
      db.entities.map (fun e => if e.id = eid then { e with status := status } else e) }

/-- Model of `db.query(Finding).filter(Finding.entity_id == entity_id).delete()`
(`osint_runner.py` line 58). -/
def deleteFindingsFor (db : Db) (eid : String) : Db :=
  { db with findings := db.findings.filter (fun f => f.entity_id ≠ eid) }

/-- Building a stored `Finding` row from a raw tool dict
(`osint_runner.py` lines 88-97); the `.get` defaults never fire because
every adapter dict carries all six keys, and `links if links else None`
stores `none` for an empty link list. -/
def findingRowOfDict (eid : String) (links : List CrossRefLink)
    (raw : FindingDict) : FindingRow :=
  { entity_id := eid
    tool_name := raw.tool_name
    tool_category := raw.category
    raw_data := some raw.raw_data
    summary := raw.summary
    severity := raw.severity
    tags := some raw.tags
    links := if links.isEmpty then none else some links }

/-- Model of `OSINTRunner._run_single_entity` (`osint_runner.py` lines 64-107).
The cross-reference call is total here, so its `except` arm
(lines 82-84, yielding no links) has no counterpart. -/
def OSINTRunner.run_single_entity (env : RunnerEnv) (db : Db)
    (entity : EntityRec) : Db × RunEntityResult :=
  let db := setEntityStatus db entity.id "running"
  match env.dispatchResult entity.entity_type entity.value env.is_premium with
  | Except.error e =>
      (setEntityStatus db entity.id "failed",
       ⟨0, "Dispatch error: " ++ e⟩)
  | Except.ok raw_findings =>
      let links := CrossRefDetector.detect_for_entity db entity raw_findings
      let newRows := raw_findings.map (findingRowOfDict entity.id links)
      let db := { db with findings := db.findings ++ newRows }
      let db := setEntityStatus db entity.id "complete"
      (db, ⟨raw_findings.length,
        "Created " ++ toString raw_findings.length ++ " findings for entity "
          ++ entity.value⟩)

/-- Model of `OSINTRunner.run_entity` (`osint_runner.py` lines 51-62): explicit
re-run — wipe old findings, reset status, then a normal single-entity run. -/
def OSINTRunner.run_entity (env : RunnerEnv) (db : Db) (entity_id : String) :
    Db × RunEntityResult :=
  match db.entities.find? (fun e => e.id = entity_id) with
  | none => (db, ⟨0, "Entity not found"⟩)
  | some entity =>
      let db := deleteFindingsFor db entity_id
      let db := setEntityStatus db entity_id "pending"
      OSINTRunner.run_single_entity env db entity

/-- The loop body of `run_project` (`osint_runner.py` lines 36-38):
run one entity, accumulate the findings count. -/
def runProjectStep (env : RunnerEnv) (acc : Db × Nat) (e : EntityRec) : Db × Nat :=
  let r := OSINTRunner.run_single_entity env acc.1 e
  (r.1, acc.2 + r.2.findings_created)

/-- Model of `OSINTRunner.run_project` (`osint_runner.py` lines 21-49). -/
def OSINTRunner.run_project (env : RunnerEnv) (db : Db) (project_id : String) :
    Db × RunProjectResult :=
  let all_entities := db.entities.filter (fun e => e.project_id = project_id)
  if all_entities.isEmpty then
    (db, ⟨0, 0, "No entities found in project"⟩)
  else
    let pending := all_entities.filter (fun e => e.status ≠ "complete")
    let skipped := all_entities.length - pending.length
    let res := pending.foldl (runProjectStep env) (db, 0)
    let tier_note := if env.is_premium then "premium tools included"
      else "upgrade to premium for enriched results"
    let skip_note := if skipped ≠ 0 then
      ", " ++ toString skipped ++ " already-complete target(s) skipped" else ""
    (res.1, ⟨pending.length, res.2,
      "Processed " ++ toString pending.length ++ " entities, created "
        ++ toString res.2 ++ " findings" ++ skip_note ++ " (" ++ tier_note ++ ")"⟩)

/-- A runner environment whose dispatch yields two phone findings. -/
def wEnv : RunnerEnv :=
  ⟨false, fun _ v _ => Except.ok
    [⟨"PhoneInfoga", "phone", [("q", JVal.str v)], "ok", "info", []⟩,
     ⟨"NumVerify", "phone", [], "ok", "info", []⟩]⟩

/-- Store for the C10 witness: one entity `e1` with one old finding. -/
def wDb10 : Db :=
  { projects := [⟨"p1", "P", "active"⟩],
    entities := [⟨"e1", "p1", "phone", "+15550001111", "", "complete"⟩],
    findings := [⟨"e1", "T", "c", none, "s", "info", none, none⟩],
    patterns := [] }

/-- Store for the C5 witness: entity `e1` already has two old findings. -/
def wDb5 : Db :=
  { projects := [⟨"p1", "P", "active"⟩],
    entities := [⟨"e1", "p1", "phone", "+15550001111", "", "complete"⟩],
    findings := [⟨"e1", "Old1", "c", none, "s", "info", none, none⟩,
                 ⟨"e1", "Old2", "c", none, "s", "info", none, none⟩],
    patterns := [] }

/-- Free-tier environment whose dispatch yields no findings, for the
investigation-wide example. -/
def wEnvEmpty : RunnerEnv := ⟨false, fun _ _ _ => Except.ok []⟩

/-- Store for the C4 example: one project `pp` with five entities, three
`complete` and two `pending`. -/
def wProjDb : Db :=
  { projects := [⟨"pp", "Proj", "active"⟩],
    entities := [⟨"a1", "pp", "email", "x1@y.z", "", "complete"⟩,
                 ⟨"a2", "pp", "email", "x2@y.z", "", "pending"⟩,
                 ⟨"a3", "pp", "email", "x3@y.z", "", "complete"⟩,
                 ⟨"a4", "pp", "email", "x4@y.z", "", "pending"⟩,
                 ⟨"a5", "pp", "email", "x5@y.z", "", "complete"⟩],
    findings := [], patterns := [] }

/-! ## Analysis engine: evidence selection (`llm_analyzer.py` lines 50-75) -/
/-- Insert into an ascending-by-key list, after every element of smaller or
equal key: the insertion step of a stable sort. -/
def insertByKey {α : Type} (key : α → Nat) (x : α) : List α → List α
  | [] => [x]
  | y :: ys => if key y ≤ key x then y :: insertByKey key x ys else x :: y :: ys

/-- Stable ascending sort by an integer key: the model of Python's stable
`sorted(xs, key=...)` (line 61). Its contract — a permutation, ascending
by key, preserving original order among equal keys — is proved below
(`sortByKey_perm`, `sortByKey_sorted`, `sortByKey_stable`). -/
def sortByKey {α : Type} (key : α → Nat) (xs : List α) : List α :=
  xs.foldl (fun acc x => insertByKey key x acc) []

/-- Model of `sev_order.get(severity, 9)` (`llm_analyzer.py` line 58): the fixed
severity priority order, lower = higher priority. -/
def sev_order_get (severity : String) : Nat :=
  if severity = "critical" then 0
  else if severity = "high" then 1
  else if severity = "medium" then 2
  else if severity = "low" then 3
  else if severity = "info" then 4
  else if severity = "error" then 5
  else 9

/-- Constant `MAX_ENTITIES` (`llm_analyzer.py` line 52). -/
def MAX_ENTITIES : Nat := 8

/-- Constant `MAX_FINDINGS_TOTAL` (`llm_analyzer.py` line 54). -/
def MAX_FINDINGS_TOTAL : Nat := 15

/-- Model of `sorted(findings, key=lambda f: sev_order.get(f.severity, 9))`
(`llm_analyzer.py` line 61). -/
def sorted_findings (findings : List FindingRow) : List FindingRow :=
  sortByKey (fun f => sev_order_get f.severity) findings

/-- Model of `top_findings = sorted_findings[:MAX_FINDINGS_TOTAL]`
(`llm_analyzer.py` line 62). -/
def top_findings (findings : List FindingRow) : List FindingRow :=
  (sorted_findings findings).take MAX_FINDINGS_TOTAL

/-- Model of `entities_with_findings` (`llm_analyzer.py` lines 66-69): the entities
owning a top finding, in the order of the `entities` list, capped at
`MAX_ENTITIES`. -/
def entities_with_findings (entities : List EntityRec) (findings : List FindingRow) :
    List EntityRec :=
  (entities.filter (fun e =>
    (top_findings findings).any (fun f => f.entity_id == e.id))).take MAX_ENTITIES

/-- Shorthand for a stored finding row carrying only the fields the
evidence selection reads. -/
def mkSevRow (eid summary severity : String) : FindingRow :=
  ⟨eid, "tool", "cat", none, summary, severity, none, none⟩

/-- The C6 example batch: 20 findings with severities critical×2, high×5,
medium×10, info×3, interleaved so that stability is actually exercised. -/
def sevSample : List FindingRow :=
  [mkSevRow "E" "m1" "medium", mkSevRow "E" "i1" "info", mkSevRow "E" "c1" "critical",
   mkSevRow "E" "h1" "high", mkSevRow "E" "h2" "high", mkSevRow "E" "m2" "medium",
   mkSevRow "E" "m3" "medium", mkSevRow "E" "i2" "info", mkSevRow "E" "h3" "high",
   mkSevRow "E" "m4" "medium", mkSevRow "E" "m5" "medium", mkSevRow "E" "c2" "critical",
   mkSevRow "E" "h4" "high", mkSevRow "E" "m6" "medium", mkSevRow "E" "h5" "high",
   mkSevRow "E" "m7" "medium", mkSevRow "E" "m8" "medium", mkSevRow "E" "i3" "info",
   mkSevRow "E" "m9" "medium", mkSevRow "E" "m10" "medium"]

/-- First-appearance order of entity ids among a finding list: the "priority
emergence order" of the spec's wording. -/
def emergenceIds (ids : List String) : List String :=
  ids.foldl (fun acc i => if i ∈ acc then acc else acc ++ [i]) []

/-- Modelled from the spec (refinement target for C8, not source code):
"from the entities that own at least one selected finding, take the first M
by that same priority emergence order" — entities ordered by the first
appearance of their id among the severity-ranked selected findings, then
capped at `MAX_ENTITIES`. -/
def specEmergenceEntities (entities : List EntityRec) (findings : List FindingRow) :
    List EntityRec :=
  ((emergenceIds ((top_findings findings).map (fun f => f.entity_id))).filterMap
    (fun eid => entities.find? (fun e => e.id = eid))).take MAX_ENTITIES

/-- Entities for the C8 counterexample: `A` before `B` in storage order. -/
def c8Entities : List EntityRec :=
  [⟨"A", "p", "email", "a@x.y", "", "complete"⟩,
   ⟨"B", "p", "email", "b@x.y", "", "complete"⟩]

/-- Findings for the C8 counterexample: `B` owns the critical finding, `A`
only a high one, so emergence order is `B` then `A`. -/
def c8Findings : List FindingRow :=
  [⟨"A", "t", "c", none, "fa", "high", none, none⟩,
   ⟨"B", "t", "c", none, "fb", "critical", none, none⟩]

/-! ## Analysis engine: tolerant response parsing (`llm_analyzer.py` lines 288-361)

`json.loads` is modelled by a small JSON parser over the character list;
it covers strings (with the common escapes), objects, arrays, integers and
the three literals — the only shapes this pipeline's data takes.
A non-integer number is rejected by the model (never produced here). -/
def openBrace : Char := Char.ofNat 123

def closeBrace : Char := Char.ofNat 125

def skipWs : List Char → List Char
  | c :: cs => if c = ' ' ∨ c = '\t' ∨ c = '\n' ∨ c = '\r' then skipWs cs else c :: cs
  | [] => []

/-- Parse the body of a JSON string after its opening quote, consuming the
closing quote. -/
def parseStringBody : Nat → List Char → List Char → Option (String × List Char)
  | 0, _, _ => none
  | _, [], _ => none
  | Nat.succ fuel, c :: cs, acc =>
    if c = '"' then some (String.mk acc.reverse, cs)
    else if c = '\\' then
      match cs with
      | [] => none
      | e :: cs2 =>
        let dec : Option Char :=
          if e = '"' then some '"'
          else if e = '\\' then some '\\'
          else if e = '/' then some '/'
          else if e = 'n' then some '\n'
          else if e = 't' then some '\t'
          else if e = 'r' then some '\r'
          else if e = 'b' then some (Char.ofNat 8)
          else if e = 'f' then some (Char.ofNat 12)
          else none
        match dec with
        | some d => parseStringBody fuel cs2 (d :: acc)
        | none => none
    else parseStringBody fuel cs (c :: acc)

def takeDigits : List Char → List Char × List Char
  | [] => ([], [])
  | c :: cs =>
    if c.isDigit then
      let p := takeDigits cs
      (c :: p.1, p.2)
    else ([], c :: cs)

def digitsToNat (ds : List Char) : Nat :=
  ds.foldl (fun n c => n * 10 + (c.toNat - 48)) 0

def parseNat (cs : List Char) : Option (Nat × List Char) :=
  let p := takeDigits cs
  if p.1.isEmpty then none else some (digitsToNat p.1, p.2)

mutual

def parseJVal : Nat → List Char → Option (JVal × List Char)
  | 0, _ => none
  | Nat.succ fuel, cs =>
    match skipWs cs with
    | [] => none
    | c :: rest =>
      if c = '"' then
        match parseStringBody (Nat.succ fuel) rest [] with
        | some (s, r) => some (JVal.str s, r)
        | none => none
      else if c = openBrace then parseObjRest fuel rest []
      else if c = '[' then parseArrRest fuel rest []
      else if c = 't' then
        match rest with
        | 'r' :: 'u' :: 'e' :: r => some (JVal.jbool true, r)
        | _ => none
      else if c = 'f' then
        match rest with
        | 'a' :: 'l' :: 's' :: 'e' :: r => some (JVal.jbool false, r)
        | _ => none
      else if c = 'n' then
        match rest with
        | 'u' :: 'l' :: 'l' :: r => some (JVal.null, r)
        | _ => none
      else if c = '-' then
        match parseNat rest with
        | some (n, r) => some (JVal.num (-(n : Int)), r)
        | none => none
      else
        match parseNat (c :: rest) with
        | some (n, r) => some (JVal.num (n : Int), r)
        | none => none

/-- After the opening brace of a JSON object (or after a comma, with the
fields parsed so far): parse the remaining fields. -/
def parseObjRest : Nat → List Char → List (String × JVal) → Option (JVal × List Char)
  | 0, _, _ => none
  | Nat.succ fuel, cs, acc =>
    match skipWs cs with
    | [] => none
    | c :: rest =>
      if c = closeBrace then
        if acc.isEmpty then some (JVal.obj [], rest) else none
      else if c = '"' then
        match parseStringBody (Nat.succ fuel) rest [] with
        | none => none
        | some (key, r1) =>
          match skipWs r1 with
          | ':' :: r2 =>
            match parseJVal fuel r2 with
            | none => none
            | some (v, r3) =>
              match skipWs r3 with
              | ',' :: r4 => parseObjRest fuel r4 ((key, v) :: acc)
              | c2 :: r4 =>
                if c2 = closeBrace then some (JVal.obj ((key, v) :: acc).reverse, r4)
                else none
              | [] => none
          | _ => none
      else none

/-- After the opening bracket of a JSON array: parse the remaining elements. -/
def parseArrRest : Nat → List Char → List JVal → Option (JVal × List Char)
  | 0, _, _ => none
  | Nat.succ fuel, cs, acc =>
    match skipWs cs with
    | [] => none
    | c :: rest =>
      if c = ']' then
        if acc.isEmpty then some (JVal.arr [], rest) else none
      else
        match parseJVal fuel (c :: rest) with
        | none => none
        | some (v, r1) =>
          match skipWs r1 with
          | ',' :: r2 => parseArrRest fuel r2 (v :: acc)
          | ']' :: r2 => some (JVal.arr (v :: acc).reverse, r2)
          | _ => none

end

/-- Model of `json.loads`: parse one JSON value and require only whitespace after it. -/
def json_loads (s : String) : Option JVal :=
  match parseJVal (s.data.length + 1) s.data with
  | some (v, rest) => if (skipWs rest).isEmpty then some v else none
  | none => none

/-- Index of the first occurrence of `needle` in the remaining text. -/
def findSubAux (needle : List Char) : List Char → Nat → Option Nat
  | [], i => if needle.isEmpty then some i else none
  | c :: cs, i =>
    if needle.isPrefixOf (c :: cs) then some i else findSubAux needle cs (i + 1)

/-- Python `text.find(needle)`, as an `Option` instead of `-1`. -/
def findSub (needle hay : List Char) : Option Nat := findSubAux needle hay 0

/-- Python `text.split(needle, 1)[1]` when the needle occurs. -/
def dropAfterSub (needle hay : List Char) : List Char :=
  match findSub needle hay with
  | some i => hay.drop (i + needle.length)
  | none => hay

/-- Python `text.split(needle, 1)[0]` (the whole text when absent). -/
def takeBeforeSub (needle hay : List Char) : List Char :=
  match findSub needle hay with
  | some i => hay.take i
  | none => hay

/-- Markdown-fence stripping (`llm_analyzer.py` lines 298-304). -/
def stripFences (text : List Char) : List Char :=
  if (findSub ("```json".data) text).isSome then
    takeBeforeSub ("```".data) (dropAfterSub ("```json".data) text)
  else if (findSub ("```".data) text).isSome then
    takeBeforeSub ("```".data) (dropAfterSub ("```".data) text)
  else text

/-- Python `text.rfind(c)`, as an `Option` instead of `-1`. -/
def rfindChar (c : Char) (cs : List Char) : Option Nat :=
  (cs.foldl (fun (acc : Nat × Option Nat) ch =>
    (acc.1 + 1, if ch = c then some acc.1 else acc.2)) (0, none)).2

/-- The `parsed` dict of `_parse_and_store_patterns`
(`llm_analyzer.py` lines 295-312): strip fences, locate the span from the
first `\x7b` to the last `\x7d`, and attempt JSON parsing inside it; any
failure leaves the empty dict. (A successful parse of that span is
necessarily an object, since the span starts at a brace.) -/
def parseLlmJson (llm_response : String) : List (String × JVal) :=
  let text := stripFences llm_response.data
  match findSub [openBrace] text, rfindChar closeBrace text with
  | some s, some e =>
    if e + 1 > s then
      match json_loads (String.mk ((text.drop s).take (e + 1 - s))) with
      | some (JVal.obj fields) => fields
      | _ => []
    else []
  | _, _ => []

/-- Python truthiness of a JSON value (`if not description: continue`). -/
def jvalTruthy : JVal → Bool
  | JVal.str s => !s.isEmpty
  | JVal.num n => n != 0
  | JVal.jbool b => b
  | JVal.null => false
  | JVal.arr l => !l.isEmpty
  | JVal.obj f => !f.isEmpty

/-- Python `str(...)` on a parsed JSON value. Scalars are rendered exactly;
composite values (never produced by the six expected keys) only
approximately. -/
def pyStr : JVal → String
  | JVal.str s => s
  | JVal.num n => toString n
  | JVal.jbool true => "True"
  | JVal.jbool false => "False"
  | JVal.null => "None"
  | JVal.arr _ => "[...]"
  | JVal.obj _ => "\x7b...\x7d"

/-- Model of `confidence_map.get(risk, 0.5)` (`llm_analyzer.py` line 319). -/
def confidence_map (risk : String) : ℚ :=
  if risk = "low" then 1/4
  else if risk = "medium" then 1/2
  else if risk = "high" then 3/4
  else if risk = "critical" then 19/20
  else 1/2

/-- A `Pattern` row as created by `_parse_and_store_patterns`. -/
def mkPattern (project_id ptype desc : String) (entity_ids : List String)
    (conf : ℚ) (model resp : String) : PatternRow :=
  { project_id := project_id, pattern_type := ptype, description := desc,
    entities_involved := entity_ids, confidence := conf,
    llm_model := model, raw_llm_output := resp }

/-- Model of `LLMAnalyzer._parse_and_store_patterns` (`llm_analyzer.py` lines
288-361): the list of patterns created (and committed) for one response. -/
def LLMAnalyzer.parse_and_store_patterns (project_id : String)
    (entity_ids : List String) (model_name : String) (llm_response : String) :
    List PatternRow :=
  let parsed := parseLlmJson llm_response
  -- Risk score stored as its own pattern type (lines 317-330)
  let riskVal : JVal := (jlookup parsed "risk_score").getD (JVal.str "unknown")
  let patterns : List PatternRow :=
    match riskVal with
    | JVal.str rs =>
      if pyLower rs = "low" ∨ pyLower rs = "medium" ∨ pyLower rs = "high"
          ∨ pyLower rs = "critical" then
        [mkPattern project_id "risk_score" (pyLower rs) entity_ids
          (confidence_map (pyLower rs)) model_name llm_response]
      else []
    | _ => []
  -- Fallback raw text only if JSON fully failed but looks JSON-like (line 333)
  let fallback_summary : String :=
    if parsed.isEmpty
        ∧ (llm_response.data.head? = some openBrace ∨ llm_response.data.head? = some '[') then
      String.mk (llm_response.data.take 800)
    else ""
  let pattern_mapping : List (String × JVal) :=
    [("summary", (jlookup parsed "summary").getD (JVal.str fallback_summary)),
     ("relationship", (jlookup parsed "relationships").getD (JVal.str "")),
     ("anomaly", (jlookup parsed "anomalies").getD (JVal.str "")),
     ("lead", (jlookup parsed "leads").getD (JVal.str "")),
     ("recommendation", (jlookup parsed "recommendations").getD (JVal.str ""))]
  -- Lines 342-358: keep a pattern only for truthy, non-placeholder values
  pattern_mapping.foldl (fun pats pv =>
    if !jvalTruthy pv.2 then pats
    else
      let desc_str := pyStrip (pyStr pv.2)
      if desc_str = "" ∨ pyLower desc_str = "none" ∨ pyLower desc_str = "n/a"
          ∨ pyLower desc_str = "null" then pats
      else pats ++ [mkPattern project_id pv.1 desc_str entity_ids (6/10)
        model_name llm_response]) patterns

/-- The C7 example backend response: a fenced JSON object with a high risk
score, non-empty summary/leads/recommendations, an empty relationships
value and a placeholder anomalies value. -/
def c7Response : String := "```json\n\x7b\"risk_score\":\"high\",\"summary\":\"x\",\"relationships\":\"\",\"anomalies\":\"n/a\",\"leads\":\"y\",\"recommendations\":\"z\"\x7d\n```"

/-! ## Analysis engine: `analyze_project` (`llm_analyzer.py` lines 21-48) -/
/-- Result shape of `analyze_project`. -/
structure AnalyzeResult where
  patterns_created : Nat
  message : String
deriving DecidableEq, Repr

/-- The analysis environment: the configured model name and the outcome of
`_call_ollama` (lines 263-286) — `none` models a `requests.RequestException`
(backend unavailable, non-success status via `raise_for_status`, or
timeout). `analyze_project` also treats an empty response text as a failure
(`if not llm_response`, line 41). -/
structure LlmEnv where
  model_name : String
  response : Option String

/-- Model of `LLMAnalyzer.analyze_project` (`llm_analyzer.py` lines 21-48) as a
transformer of the committed store. The pattern deletion of line 35 is
only flushed to the request-scoped session (`autocommit=False`, never
committed by `get_db`), so on the failure return of line 42 it is discarded
when the session closes; the commit happens inside
`_parse_and_store_patterns` (line 360), making the deletion and the new
inserts one committed step. -/
def LLMAnalyzer.analyze_project (env : LlmEnv) (db : Db) (project_id : String) :
    Db × AnalyzeResult :=
  let entities := db.entities.filter (fun e => e.project_id = project_id)
  if entities.isEmpty then (db, ⟨0, "No entities to analyze"⟩)
  else
    let entity_ids := entities.map (fun e => e.id)
    let findings := db.findings.filter (fun f => f.entity_id ∈ entity_ids)
    if findings.isEmpty then (db, ⟨0, "No findings to analyze"⟩)
    else
      let keptPatterns := db.patterns.filter (fun p => p.project_id ≠ project_id)
      match env.response with
      | none => (db, ⟨0, "LLM analysis failed"⟩)
      | some llm_response =>
        if llm_response.isEmpty then (db, ⟨0, "LLM analysis failed"⟩)
        else
          let patterns := LLMAnalyzer.parse_and_store_patterns project_id
            entity_ids env.model_name llm_response
          ({ db with patterns := keptPatterns ++ patterns },
           ⟨patterns.length,
            "Generated " ++ toString patterns.length ++ " patterns from LLM analysis"⟩)

/-- Store for the C9 witness: project `p1` with one entity, one finding,
one previously committed pattern, plus another project's pattern. -/
def wDb9 : Db :=
  { projects := [⟨"p1", "P", "active"⟩],
    entities := [⟨"e1", "p1", "email", "a@b.c", "", "complete"⟩],
    findings := [⟨"e1", "T", "c", none, "s", "info", none, none⟩],
    patterns := [mkPattern "p1" "summary" "old" ["e1"] (6/10) "m" "r",
                 mkPattern "p2" "summary" "other" ["x"] (6/10) "m" "r"] }

/-- The failing backend environment for the C9 witness. -/
def wEnv9 : LlmEnv := ⟨"llama3", none⟩

/-! ## Theorems -/

/-- C1. An adapter that raises during dispatch is converted into exactly
one synthetic finding at that adapter's position: severity `"error"`, tags
containing `"error"` and `"tool-failure"`, raw payload carrying the error
message; the remaining adapters still contribute (the result has one entry
per invoked adapter), and dispatch is a total function — an adapter failure
never raises past the dispatcher boundary. -/
theorem dispatch_isolates_adapter_failure
    (run : ToolClass → String → Except String FindingDict)
    (entity_type entity_value : String) (is_premium : Bool)
    (i : Nat) (tool : ToolClass) (e : String)
    (htool : (dispatchTools entity_type is_premium)[i]? = some tool)
    (herr : run tool entity_value = Except.error e) :
    (ToolDispatcher.dispatch run entity_type entity_value is_premium).length
      = (dispatchTools entity_type is_premium).length
    ∧ (ToolDispatcher.dispatch run entity_type entity_value is_premium)[i]?
      = some (errorFinding tool e)
    ∧ (errorFinding tool e).severity = "error"
    ∧ "error" ∈ (errorFinding tool e).tags
    ∧ "tool-failure" ∈ (errorFinding tool e).tags
    ∧ jlookup (errorFinding tool e).raw_data "error" = some (JVal.str e)
    ∧ (errorFinding tool e).tool_name = tool.name
    ∧ (errorFinding tool e).category = tool.category := by
  refine ⟨List.length_map _ _, ?_, rfl, ?_, ?_, ?_, rfl, rfl⟩
  · rw [ToolDispatcher.dispatch, List.getElem?_map, htool, Option.map_some']
    rw [herr]
  · simp [errorFinding]
  · simp [errorFinding]
  · simp [jlookup, errorFinding]

/-- Witness for C1: on a phone entity with both adapters raising `"boom"`,
the first result slot is the synthetic PhoneInfoga error finding and the
batch still has two entries. -/
theorem dispatch_isolates_adapter_failure_witness :
    (ToolDispatcher.dispatch (fun _ _ => Except.error "boom") "phone" "+15550001111" false).length
      = (dispatchTools "phone" false).length
    ∧ (ToolDispatcher.dispatch (fun _ _ => Except.error "boom") "phone" "+15550001111" false)[0]?
      = some (errorFinding PhoneInfogaTool "boom")
    ∧ (errorFinding PhoneInfogaTool "boom").severity = "error"
    ∧ "error" ∈ (errorFinding PhoneInfogaTool "boom").tags
    ∧ "tool-failure" ∈ (errorFinding PhoneInfogaTool "boom").tags
    ∧ jlookup (errorFinding PhoneInfogaTool "boom").raw_data "error"
      = some (JVal.str "boom")
    ∧ (errorFinding PhoneInfogaTool "boom").tool_name = PhoneInfogaTool.name
    ∧ (errorFinding PhoneInfogaTool "boom").category = PhoneInfogaTool.category :=
  dispatch_isolates_adapter_failure (fun _ _ => Except.error "boom")
    "phone" "+15550001111" false 0 PhoneInfogaTool "boom" (by rfl) (by rfl)

/-- C2. Premium gating: a non-premium dispatch returns at most N
findings for an entity type with N mapped adapters, and every returned
finding comes from a non-premium adapter (premium-only adapters are
silently excluded); a premium dispatch invokes the full mapped list,
premium-only adapters included, hence returns exactly N findings; an
unmapped entity type yields the empty list, not an error. -/
theorem dispatch_premium_gating
    (run : ToolClass → String → Except String FindingDict)
    (entity_type entity_value : String) :
    (ToolDispatcher.dispatch run entity_type entity_value false).length
      ≤ (ENTITY_TOOL_MAP entity_type).length
    ∧ (∀ r ∈ ToolDispatcher.dispatch run entity_type entity_value false,
        ∃ tool, tool ∈ ENTITY_TOOL_MAP entity_type ∧ tool.premium_only = false
          ∧ (run tool entity_value = Except.ok r
             ∨ ∃ e, run tool entity_value = Except.error e ∧ r = errorFinding tool e))
    ∧ dispatchTools entity_type true = ENTITY_TOOL_MAP entity_type
    ∧ (ToolDispatcher.dispatch run entity_type entity_value true).length
      = (ENTITY_TOOL_MAP entity_type).length
    ∧ (entity_type ∉ mappedEntityTypes →
        ToolDispatcher.dispatch run entity_type entity_value false = []
        ∧ ToolDispatcher.dispatch run entity_type entity_value true = []) := by
  have hall : dispatchTools entity_type true = ENTITY_TOOL_MAP entity_type := by
    simp [dispatchTools]
  refine ⟨?_, ?_, hall, ?_, ?_⟩
  · calc (ToolDispatcher.dispatch run entity_type entity_value false).length
        = (dispatchTools entity_type false).length := List.length_map _ _
      _ ≤ (ENTITY_TOOL_MAP entity_type).length := List.length_filter_le _ _
  · intro r hr
    rw [ToolDispatcher.dispatch, List.mem_map] at hr
    obtain ⟨tool, htool, hres⟩ := hr
    rw [dispatchTools, List.mem_filter] at htool
    obtain ⟨hmem, hfree⟩ := htool
    refine ⟨tool, hmem, ?_, ?_⟩
    · simpa using hfree
    · cases hrun : run tool entity_value with
      | ok res =>
          left
          rw [hrun] at hres
          exact congrArg Except.ok hres
      | error e =>
          right
          rw [hrun] at hres
          exact ⟨e, rfl, hres.symm⟩
  · rw [ToolDispatcher.dispatch, List.length_map, hall]
  · intro hnot
    have hmap : ENTITY_TOOL_MAP entity_type = [] := by
      rw [mappedEntityTypes] at hnot
      simp only [List.mem_cons, List.not_mem_nil, or_false, not_or] at hnot
      obtain ⟨h1, h2, h3, h4, h5, h6, h7, h8⟩ := hnot
      rw [ENTITY_TOOL_MAP, if_neg h1, if_neg h2, if_neg h3, if_neg h4,
        if_neg h5, if_neg h6, if_neg h7, if_neg h8]
    constructor <;>
      rw [ToolDispatcher.dispatch, dispatchTools, hmap, List.filter_nil, List.map_nil]

/-- Witness for C2 at the unmapped entity type `"vehicle"`: both tiers
yield the empty list and the remaining conjuncts hold concretely. -/
theorem dispatch_premium_gating_witness :
    ((ToolDispatcher.dispatch (fun _ _ => Except.error "x") "vehicle" "v" false).length
      ≤ (ENTITY_TOOL_MAP "vehicle").length
    ∧ (∀ r ∈ ToolDispatcher.dispatch (fun _ _ => Except.error "x") "vehicle" "v" false,
        ∃ tool, tool ∈ ENTITY_TOOL_MAP "vehicle" ∧ tool.premium_only = false
          ∧ ((fun (_ : ToolClass) (_ : String) => Except.error (ε := String) (α := FindingDict) "x") tool "v" = Except.ok r
             ∨ ∃ e, (fun (_ : ToolClass) (_ : String) => Except.error (ε := String) (α := FindingDict) "x") tool "v" = Except.error e ∧ r = errorFinding tool e))
    ∧ dispatchTools "vehicle" true = ENTITY_TOOL_MAP "vehicle"
    ∧ (ToolDispatcher.dispatch (fun _ _ => Except.error "x") "vehicle" "v" true).length
      = (ENTITY_TOOL_MAP "vehicle").length
    ∧ ("vehicle" ∉ mappedEntityTypes →
        ToolDispatcher.dispatch (fun _ _ => Except.error "x") "vehicle" "v" false = []
        ∧ ToolDispatcher.dispatch (fun _ _ => Except.error "x") "vehicle" "v" true = [])) :=
  dispatch_premium_gating (fun _ _ => Except.error "x") "vehicle" "v"

theorem mem_queryMatches (db : Db) (entity : EntityRec) (etype evalue : String)
    (ep : EntityRec × ProjectRec) (h : ep ∈ queryMatches db entity etype evalue) :
    RowOk db entity ep := by
  rw [queryMatches, List.mem_filter] at h
  obtain ⟨hmem, hprops⟩ := h
  rw [List.mem_flatMap] at hmem
  obtain ⟨e0, he0, hmm⟩ := hmem
  rw [List.mem_map] at hmm
  obtain ⟨p0, hp0, heq⟩ := hmm
  subst heq
  simp only [decide_eq_true_eq] at hprops
  exact ⟨he0, hp0, hprops.1, hprops.2.2.2.1, hprops.2.2.2.2⟩

theorem crossRefCollect_inv (db : Db) (entity : EntityRec)
    (hself : ∀ e ∈ db.entities, e.id = entity.id → e.project_id = entity.project_id)
    (reason : String) (rows : List (EntityRec × ProjectRec))
    (st : List CrossRefLink × List String)
    (hrows : ∀ ep ∈ rows, RowOk db entity ep)
    (hinv : CollectInv db entity st) :
    CollectInv db entity (crossRefCollect reason rows st) := by
  induction rows generalizing st with
  | nil => simpa [crossRefCollect] using hinv
  | cons ep rest ih =>
    obtain ⟨ent, proj⟩ := ep
    obtain ⟨links, seen⟩ := st
    have hrow := hrows (ent, proj) (List.mem_cons_self _ _)
    have hrest : ∀ ep ∈ rest, RowOk db entity ep :=
      fun ep hep => hrows ep (List.mem_cons_of_mem _ hep)
    obtain ⟨hgood, hnodup, hseen⟩ := hinv
    rw [crossRefCollect]
    by_cases hmem : ent.id ∈ seen
    · rw [if_pos hmem]
      exact ih _ hrest ⟨hgood, hnodup, hseen⟩
    · rw [if_neg hmem]
      apply ih _ hrest
      obtain ⟨hent_mem, hproj_mem, hjoin, hdiff, harch⟩ := hrow
      have hgoodNew : GoodLink db entity
          { entity_id := ent.id, entity_type := ent.entity_type,
            entity_value := ent.value, project_id := proj.id,
            project_name := proj.name, match_reason := reason } := by
        refine ⟨?_, ⟨proj, hproj_mem, rfl, harch⟩, ?_⟩
        · show proj.id ≠ entity.project_id
          rw [← hjoin]
          exact hdiff
        · intro hid
          exact hdiff (hself ent hent_mem hid)
      refine ⟨?_, ?_, ?_⟩
      · intro l hl
        rcases List.mem_append.mp hl with hl | hl
        · exact hgood l hl
        · rw [List.mem_singleton] at hl
          subst hl
          exact hgoodNew
      · rw [List.map_append, List.map_singleton]
        rw [List.nodup_append]
        refine ⟨hnodup, List.nodup_singleton _, ?_⟩
        intro x hx hx1
        rw [List.mem_singleton] at hx1
        subst hx1
        rw [List.mem_map] at hx
        obtain ⟨l, hl, hlid⟩ := hx
        have : l.entity_id = ent.id := hlid
        exact hmem (this ▸ hseen l hl)
      · intro l hl
        rcases List.mem_append.mp hl with hl | hl
        · exact List.mem_cons_of_mem _ (hseen l hl)
        · rw [List.mem_singleton] at hl
          subst hl
          exact List.mem_cons_self _ _

theorem detect_foldl_inv (db : Db) (entity : EntityRec)
    (hself : ∀ e ∈ db.entities, e.id = entity.id → e.project_id = entity.project_id)
    (pairs : List ((String × String) × String))
    (st : List CrossRefLink × List String) (hinv : CollectInv db entity st) :
    CollectInv db entity
      (pairs.foldl (fun acc pair =>
        crossRefCollect pair.2 (queryMatches db entity pair.1.1 pair.1.2) acc) st) := by
  induction pairs generalizing st with
  | nil => simpa using hinv
  | cons pair rest ih =>
    rw [List.foldl_cons]
    exact ih _ (crossRefCollect_inv db entity hself pair.2 _ st
      (fun ep hep => mem_queryMatches db entity pair.1.1 pair.1.2 ep hep) hinv)

/-- C3. Cross-reference detection never returns a link into the source
entity's own investigation, never returns a link into an archived
investigation (every link's project is a non-archived stored project),
never matches the entity against itself, and never returns two links with
the same matched entity id in one detection call. The hypothesis says the
store is consistent about the source entity's own investigation: any stored
row carrying the entity's id carries its project id. -/
theorem detect_for_entity_link_invariants (db : Db) (entity : EntityRec)
    (raw_findings : List FindingDict)
    (hself : ∀ e ∈ db.entities, e.id = entity.id → e.project_id = entity.project_id) :
    (∀ l ∈ CrossRefDetector.detect_for_entity db entity raw_findings,
        l.project_id ≠ entity.project_id
        ∧ (∃ p ∈ db.projects, p.id = l.project_id ∧ p.status ≠ "archived")
        ∧ l.entity_id ≠ entity.id)
    ∧ ((CrossRefDetector.detect_for_entity db entity raw_findings).map
        (fun l => l.entity_id)).Nodup := by
  have hinv := detect_foldl_inv db entity hself
    (CrossRefDetector.build_search_pairs entity raw_findings) ([], [])
    ⟨fun l hl => absurd hl (List.not_mem_nil l),
     List.nodup_nil, fun l hl => absurd hl (List.not_mem_nil l)⟩
  obtain ⟨hgood, hnodup, _⟩ := hinv
  exact ⟨fun l hl => hgood l hl, hnodup⟩

/-- Witness for C3 at the concrete store `wDb`. -/
theorem detect_for_entity_link_invariants_witness :
    (∀ l ∈ CrossRefDetector.detect_for_entity wDb wEntity [],
        l.project_id ≠ wEntity.project_id
        ∧ (∃ p ∈ wDb.projects, p.id = l.project_id ∧ p.status ≠ "archived")
        ∧ l.entity_id ≠ wEntity.id)
    ∧ ((CrossRefDetector.detect_for_entity wDb wEntity []).map
        (fun l => l.entity_id)).Nodup :=
  detect_for_entity_link_invariants wDb wEntity [] (by decide)

/-- Sanity check of the embedding on `wDb`: exactly the active other-project
match `e2` is linked, the archived `e3` and the entity itself are not. -/
theorem detect_for_entity_sample_eval :
    CrossRefDetector.detect_for_entity wDb wEntity []
      = [{ entity_id := "e2", entity_type := "email", entity_value := "A@B.com",
           project_id := "p2", project_name := "Proj2",
           match_reason := "Shared email" }] := by
  decide

theorem filter_of_deleted (l : List FindingRow) (eid : String) :
    (l.filter (fun f => f.entity_id ≠ eid)).filter (fun f => f.entity_id = eid) = [] := by
  induction l with
  | nil => rfl
  | cons f rest ih => by_cases h : f.entity_id = eid <;> simp [List.filter_cons, h, ih]

/-- C10. A single-entity run for an id matching no stored entity
returns `{findings_created: 0, message: "Entity not found"}` and leaves the
store untouched — no findings deleted, no status changed, no dispatch. -/
theorem run_entity_not_found (env : RunnerEnv) (db : Db) (entity_id : String)
    (habs : ∀ e ∈ db.entities, e.id ≠ entity_id) :
    OSINTRunner.run_entity env db entity_id = (db, ⟨0, "Entity not found"⟩) := by
  have hnone : db.entities.find? (fun e => e.id = entity_id) = none := by
    rw [List.find?_eq_none]
    intro e he
    simpa using habs e he
  rw [OSINTRunner.run_entity, hnone]

/-- Witness for C10: the id `"missing"` matches nothing; the store and
result are exactly as claimed. -/
theorem run_entity_not_found_witness :
    OSINTRunner.run_entity wEnv wDb10 "missing" = (wDb10, ⟨0, "Entity not found"⟩) :=
  run_entity_not_found wEnv wDb10 "missing" (by decide)

/-- C5. An explicit re-run first wipes the entity's findings and only
then stores the fresh batch, so afterwards the findings stored for that
entity are exactly the ones the most recent run created — repeated re-runs
never accumulate findings. -/
theorem run_entity_no_finding_accumulation (env : RunnerEnv) (db : Db)
    (entity_id : String)
    (hfound : (db.entities.find? (fun e => e.id = entity_id)).isSome) :
    ((OSINTRunner.run_entity env db entity_id).1.findings.filter
        (fun f => f.entity_id = entity_id)).length
      = (OSINTRunner.run_entity env db entity_id).2.findings_created := by
  cases hfind : db.entities.find? (fun e => e.id = entity_id) with
  | none => rw [hfind] at hfound; exact absurd hfound (by simp)
  | some entity =>
    have hid : entity.id = entity_id := by
      have := List.find?_some hfind
      simpa using this
    subst hid
    cases hdisp : env.dispatchResult entity.entity_type entity.value env.is_premium with
    | error e =>
      simp only [OSINTRunner.run_entity, OSINTRunner.run_single_entity, hfind, hdisp,
        deleteFindingsFor, setEntityStatus]
      rw [filter_of_deleted]
      rfl
    | ok raws =>
      simp only [OSINTRunner.run_entity, OSINTRunner.run_single_entity, hfind, hdisp,
        deleteFindingsFor, setEntityStatus]
      rw [List.filter_append, filter_of_deleted, List.nil_append]
      rw [List.filter_eq_self.mpr, List.length_map]
      intro row hrow
      rw [List.mem_map] at hrow
      obtain ⟨raw, _, hres⟩ := hrow
      subst hres
      simp [findingRowOfDict]

/-- Witness for C5: re-running `e1` (which already has two stored findings)
leaves exactly as many findings stored for it as the run created. -/
theorem run_entity_no_finding_accumulation_witness :
    ((OSINTRunner.run_entity wEnv wDb5 "e1").1.findings.filter
        (fun f => f.entity_id = "e1")).length
      = (OSINTRunner.run_entity wEnv wDb5 "e1").2.findings_created :=
  run_entity_no_finding_accumulation wEnv wDb5 "e1" (by decide)

/-- Sanity check for C5 on `wDb5`: the two old findings are replaced by the
two fresh ones, and the re-run reports 2 created. -/
theorem run_entity_sample_counts :
    (OSINTRunner.run_entity wEnv wDb5 "e1").2.findings_created = 2
    ∧ ((OSINTRunner.run_entity wEnv wDb5 "e1").1.findings.filter
        (fun f => f.entity_id = "e1")).length = 2 := by
  decide

theorem mem_setEntityStatus (db : Db) (eid s : String) (x : EntityRec)
    (hx : x ∈ db.entities) (hne : x.id ≠ eid) :
    x ∈ (setEntityStatus db eid s).entities :=
  List.mem_map.mpr ⟨x, hx, if_neg hne⟩

theorem mem_run_single_entity (env : RunnerEnv) (db : Db) (ent x : EntityRec)
    (hx : x ∈ db.entities) (hne : x.id ≠ ent.id) :
    x ∈ (OSINTRunner.run_single_entity env db ent).1.entities := by
  rw [OSINTRunner.run_single_entity]
  cases hdisp : env.dispatchResult ent.entity_type ent.value env.is_premium with
  | error e =>
      exact mem_setEntityStatus _ _ _ x (mem_setEntityStatus _ _ _ x hx hne) hne
  | ok raws =>
      exact mem_setEntityStatus _ _ _ x (mem_setEntityStatus _ _ _ x hx hne) hne

theorem foldl_preserves_entities (env : RunnerEnv) (pending : List EntityRec) :
    ∀ (db : Db) (n : Nat) (x : EntityRec), x ∈ db.entities →
      (∀ p ∈ pending, x.id ≠ p.id) →
      x ∈ (pending.foldl (runProjectStep env) (db, n)).1.entities := by
  induction pending with
  | nil =>
      intro db n x hx _
      simpa using hx
  | cons p rest ih =>
      intro db n x hx hne
      rw [List.foldl_cons]
      exact ih _ _ x
        (mem_run_single_entity env db p x hx (hne p (List.mem_cons_self _ _)))
        (fun q hq => hne q (List.mem_cons_of_mem _ hq))

theorem length_filter_status_compl (l : List EntityRec) :
    (l.filter (fun e => e.status = "complete")).length
      + (l.filter (fun e => e.status ≠ "complete")).length = l.length := by
  induction l with
  | nil => rfl
  | cons e rest ih =>
      simp only [List.filter_cons, decide_not] at ih ⊢
      by_cases h : e.status = "complete" <;> simp only [h] <;> simp <;> omega

/-- C4. An investigation-wide run processes exactly the project's
entities whose status is not `"complete"` (their count is the reported
`entities_processed`), the skipped remainder is exactly the `"complete"`
ones, and every skipped `"complete"` entity is left untouched in the store;
on the five-entity example store (three `complete`, two `pending`) the run
reports 2 processed, 0 findings and a message naming 3 skipped. The
hypothesis says stored entity ids are unambiguous. -/
theorem run_project_skips_complete (env : RunnerEnv) (db : Db) (project_id : String)
    (hids : ∀ e1 ∈ db.entities, ∀ e2 ∈ db.entities, e1.id = e2.id → e1 = e2) :
    ((OSINTRunner.run_project env db project_id).2.entities_processed
      = ((db.entities.filter (fun e => e.project_id = project_id)).filter
          (fun e => e.status ≠ "complete")).length)
    ∧ ((db.entities.filter (fun e => e.project_id = project_id)).length
        - (OSINTRunner.run_project env db project_id).2.entities_processed
      = ((db.entities.filter (fun e => e.project_id = project_id)).filter
          (fun e => e.status = "complete")).length)
    ∧ (∀ e ∈ db.entities, e.project_id = project_id → e.status = "complete" →
        e ∈ (OSINTRunner.run_project env db project_id).1.entities)
    ∧ (OSINTRunner.run_project wEnvEmpty wProjDb "pp").2
      = ⟨2, 0, "Processed 2 entities, created 0 findings, 3 already-complete target(s) skipped (upgrade to premium for enriched results)"⟩ := by
  have hcompl := length_filter_status_compl
    (db.entities.filter (fun e => e.project_id = project_id))
  by_cases hemp : (db.entities.filter (fun e => e.project_id = project_id)).isEmpty
  · have h0 : OSINTRunner.run_project env db project_id
        = (db, ⟨0, 0, "No entities found in project"⟩) := by
      rw [OSINTRunner.run_project, if_pos hemp]
    have hnil : db.entities.filter (fun e => e.project_id = project_id) = [] :=
      List.isEmpty_iff.mp hemp
    refine ⟨?_, ?_, ?_, by decide⟩
    · rw [h0, hnil, List.filter_nil]
      rfl
    · rw [h0, hnil, List.filter_nil]
      rfl
    · intro e he _ _
      rw [h0]
      exact he
  · have h1 : (OSINTRunner.run_project env db project_id).2.entities_processed
        = ((db.entities.filter (fun e => e.project_id = project_id)).filter
            (fun e => e.status ≠ "complete")).length := by
      rw [OSINTRunner.run_project, if_neg hemp]
    have h3 : (OSINTRunner.run_project env db project_id).1
        = (((db.entities.filter (fun e => e.project_id = project_id)).filter
            (fun e => e.status ≠ "complete")).foldl (runProjectStep env) (db, 0)).1 := by
      rw [OSINTRunner.run_project, if_neg hemp]
    refine ⟨h1, ?_, ?_, by decide⟩
    · rw [h1]
      omega
    · intro e he hproj hstat
      rw [h3]
      apply foldl_preserves_entities
      · exact he
      · intro p hp heq
        have hp1 := List.mem_filter.mp hp
        have hp2 := List.mem_filter.mp hp1.1
        have := hids e he p hp2.1 heq
        subst this
        have : ¬ (e.status = "complete") := by simpa using hp1.2
        exact this hstat

/-- Witness for C4 at the five-entity example store. -/
theorem run_project_skips_complete_witness :
    ((OSINTRunner.run_project wEnvEmpty wProjDb "pp").2.entities_processed
      = ((wProjDb.entities.filter (fun e => e.project_id = "pp")).filter
          (fun e => e.status ≠ "complete")).length)
    ∧ ((wProjDb.entities.filter (fun e => e.project_id = "pp")).length
        - (OSINTRunner.run_project wEnvEmpty wProjDb "pp").2.entities_processed
      = ((wProjDb.entities.filter (fun e => e.project_id = "pp")).filter
          (fun e => e.status = "complete")).length)
    ∧ (∀ e ∈ wProjDb.entities, e.project_id = "pp" → e.status = "complete" →
        e ∈ (OSINTRunner.run_project wEnvEmpty wProjDb "pp").1.entities)
    ∧ (OSINTRunner.run_project wEnvEmpty wProjDb "pp").2
      = ⟨2, 0, "Processed 2 entities, created 0 findings, 3 already-complete target(s) skipped (upgrade to premium for enriched results)"⟩ :=
  run_project_skips_complete wEnvEmpty wProjDb "pp" (by decide)

theorem insertByKey_perm {α : Type} (key : α → Nat) (x : α) (l : List α) :
    (insertByKey key x l).Perm (x :: l) := by
  induction l with
  | nil => exact List.Perm.refl _
  | cons y ys ih =>
      rw [insertByKey]
      by_cases h : key y ≤ key x
      · rw [if_pos h]
        exact (ih.cons y).trans (List.Perm.swap x y ys)
      · rw [if_neg h]

theorem sortByKey_perm {α : Type} (key : α → Nat) (xs : List α) :
    (sortByKey key xs).Perm xs := by
  suffices h : ∀ acc : List α,
      (xs.foldl (fun acc x => insertByKey key x acc) acc).Perm (xs.reverse ++ acc) by
    have h0 := h []
    rw [List.append_nil] at h0
    exact h0.trans (List.reverse_perm xs)
  induction xs with
  | nil => intro acc; simp
  | cons x rest ih =>
      intro acc
      rw [List.foldl_cons]
      refine (ih _).trans ?_
      have hins : (insertByKey key x acc).Perm (x :: acc) := insertByKey_perm key x acc
      refine (List.Perm.append_left _ hins).trans ?_
      rw [List.reverse_cons, List.append_assoc]
      exact List.Perm.refl _

theorem insertByKey_sorted {α : Type} (key : α → Nat) (x : α) (l : List α)
    (hl : l.Pairwise (fun a b => key a ≤ key b)) :
    (insertByKey key x l).Pairwise (fun a b => key a ≤ key b) := by
  induction l with
  | nil => simp [insertByKey]
  | cons y ys ih =>
      rw [insertByKey]
      rw [List.pairwise_cons] at hl
      by_cases h : key y ≤ key x
      · rw [if_pos h]
        rw [List.pairwise_cons]
        refine ⟨?_, ih hl.2⟩
        intro b hb
        have hb2 := (insertByKey_perm key x ys).mem_iff.mp hb
        rcases List.mem_cons.mp hb2 with hb2 | hb2
        · subst hb2; exact h
        · exact hl.1 b hb2
      · rw [if_neg h]
        rw [List.pairwise_cons]
        refine ⟨?_, List.pairwise_cons.mpr hl⟩
        intro b hb
        rcases List.mem_cons.mp hb with hb | hb
        · subst hb; omega
        · have := hl.1 b hb
          omega

theorem sortByKey_sorted {α : Type} (key : α → Nat) (xs : List α) :
    (sortByKey key xs).Pairwise (fun a b => key a ≤ key b) := by
  suffices h : ∀ acc : List α, acc.Pairwise (fun a b => key a ≤ key b) →
      (xs.foldl (fun acc x => insertByKey key x acc) acc).Pairwise
        (fun a b => key a ≤ key b) by
    exact h [] List.Pairwise.nil
  induction xs with
  | nil => intro acc hacc; simpa using hacc
  | cons x rest ih =>
      intro acc hacc
      rw [List.foldl_cons]
      exact ih _ (insertByKey_sorted key x acc hacc)

theorem insertByKey_stable {α : Type} (key : α → Nat) (x : α) (l : List α) (k : Nat)
    (hl : l.Pairwise (fun a b => key a ≤ key b)) :
    (insertByKey key x l).filter (fun a => key a = k)
      = if key x = k then l.filter (fun a => key a = k) ++ [x]
        else l.filter (fun a => key a = k) := by
  induction l with
  | nil => by_cases hx : key x = k <;> simp [insertByKey, hx]
  | cons y ys ih =>
      rw [List.pairwise_cons] at hl
      rw [insertByKey]
      by_cases h : key y ≤ key x
      · rw [if_pos h]
        by_cases hy : key y = k <;> by_cases hx : key x = k <;>
          simp [List.filter_cons, hy, hx, ih hl.2]
      · rw [if_neg h]
        by_cases hx : key x = k
        · have hy : ¬ key y = k := by omega
          have hys : ys.filter (fun a => key a = k) = [] := by
            rw [List.filter_eq_nil_iff]
            intro b hb
            have := hl.1 b hb
            simp only [decide_eq_true_eq]
            omega
          simp [List.filter_cons, hx, hy, hys]
        · simp [List.filter_cons, hx]

theorem sortByKey_stable {α : Type} (key : α → Nat) (xs : List α) (k : Nat) :
    (sortByKey key xs).filter (fun a => key a = k)
      = xs.filter (fun a => key a = k) := by
  suffices h : ∀ acc : List α, acc.Pairwise (fun a b => key a ≤ key b) →
      (xs.foldl (fun acc x => insertByKey key x acc) acc).filter (fun a => key a = k)
        = acc.filter (fun a => key a = k) ++ xs.filter (fun a => key a = k) by
    simpa using h [] List.Pairwise.nil
  induction xs with
  | nil => intro acc _; simp
  | cons x rest ih =>
      intro acc hacc
      rw [List.foldl_cons, List.filter_cons]
      rw [ih _ (insertByKey_sorted key x acc hacc)]
      rw [insertByKey_stable key x acc k hacc]
      by_cases hx : key x = k <;> simp [hx, List.append_assoc]

/-- C6. Evidence selection ranks all findings by the fixed severity
priority order (critical before high before medium before low before info
before error) with a stable sort — the ranked list is a permutation of the
input, ascending in priority, and preserves original order within each
priority class — and takes the top 15. On the 20-finding example (2
critical, 5 high, 10 medium, 3 info) the selected 15 are both criticals,
all five highs, and exactly the first eight mediums in original order —
and zero infos. -/
theorem evidence_selection_ranked_top15 :
    (∀ findings : List FindingRow,
        (sorted_findings findings).Perm findings
        ∧ (sorted_findings findings).Pairwise
            (fun a b => sev_order_get a.severity ≤ sev_order_get b.severity)
        ∧ (∀ k, (sorted_findings findings).filter
              (fun f => sev_order_get f.severity = k)
            = findings.filter (fun f => sev_order_get f.severity = k))
        ∧ top_findings findings = (sorted_findings findings).take 15)
    ∧ top_findings sevSample
      = [mkSevRow "E" "c1" "critical", mkSevRow "E" "c2" "critical",
         mkSevRow "E" "h1" "high", mkSevRow "E" "h2" "high", mkSevRow "E" "h3" "high",
         mkSevRow "E" "h4" "high", mkSevRow "E" "h5" "high",
         mkSevRow "E" "m1" "medium", mkSevRow "E" "m2" "medium",
         mkSevRow "E" "m3" "medium", mkSevRow "E" "m4" "medium",
         mkSevRow "E" "m5" "medium", mkSevRow "E" "m6" "medium",
         mkSevRow "E" "m7" "medium", mkSevRow "E" "m8" "medium"] := by
  refine ⟨fun findings =>
    ⟨sortByKey_perm _ _, sortByKey_sorted _ _, fun k => sortByKey_stable _ _ _, rfl⟩, ?_⟩
  rfl

/-- Counterexample to C8 as stated: the implementation keeps the storage
order `[A, B]`, while the spec's emergence order would give `[B, A]`. -/
theorem entities_selection_emergence_counterexample :
    entities_with_findings c8Entities c8Findings
      ≠ specEmergenceEntities c8Entities c8Findings := by
  decide

/-- C8, amended. The entities included in the prompt are, among those
that own at least one selected (top-severity) finding, the first
`MAX_ENTITIES` in the order of the stored `entities` list (storage order) —
not in the selected findings' emergence order: position `i` of the
selection is position `i` of the storage-ordered owner list for
`i < MAX_ENTITIES`, and every included entity owns a selected finding. -/
theorem entities_selection_storage_order (entities : List EntityRec)
    (findings : List FindingRow) :
    (∀ i : Nat, (entities_with_findings entities findings)[i]?
        = if i < MAX_ENTITIES
          then (entities.filter (fun e =>
              (top_findings findings).any (fun f => f.entity_id == e.id)))[i]?
          else none)
    ∧ (∀ e ∈ entities_with_findings entities findings,
        ∃ f ∈ top_findings findings, f.entity_id = e.id) := by
  constructor
  · intro i
    exact List.getElem?_take
  · intro e he
    have h1 := List.mem_of_mem_take he
    have h2 := List.mem_filter.mp h1
    obtain ⟨f, hf, hbeq⟩ := List.any_eq_true.mp h2.2
    exact ⟨f, hf, by simpa using hbeq⟩

/-- Counterexample to C7 as stated: on the example response the code
creates 4 patterns (risk_score, summary, lead, recommendation), not 3 —
the claim's own enumeration lists four patterns. -/
theorem pattern_generation_count_counterexample :
    (LLMAnalyzer.parse_and_store_patterns "p1" ["e1"] "llama3" c7Response).length
      ≠ 3 := by
  decide

/-- C7, amended. On the example response exactly 4 patterns are
created: a `risk_score` pattern with confidence 0.75 and `summary`, `lead`,
`recommendation` patterns each with confidence 0.6, while `relationships`
(empty) and `anomalies` (placeholder `"n/a"`) are dropped. -/
theorem pattern_generation_example :
    LLMAnalyzer.parse_and_store_patterns "p1" ["e1"] "llama3" c7Response
      = [mkPattern "p1" "risk_score" "high" ["e1"] (3/4) "llama3" c7Response,
         mkPattern "p1" "summary" "x" ["e1"] (6/10) "llama3" c7Response,
         mkPattern "p1" "lead" "y" ["e1"] (6/10) "llama3" c7Response,
         mkPattern "p1" "recommendation" "z" ["e1"] (6/10) "llama3" c7Response] := by
  rfl

/-- C9. If the inference backend call fails (request exception —
backend unavailable, non-success response, timeout — or an empty response
text), `analyze_project` returns
`{patterns_created: 0, message: "LLM analysis failed"}` without raising and
without changing the committed store: the flushed pattern deletion is never
committed on its own. Moreover, for every environment the committed store
either is unchanged or holds the other projects' patterns plus exactly the
newly created ones — the delete and the recreate commit together. -/
theorem analyze_project_failure_atomic (env : LlmEnv) (db : Db) (project_id : String)
    (hent : (db.entities.filter (fun e => e.project_id = project_id)).isEmpty = false)
    (hfind : (db.findings.filter (fun f => f.entity_id ∈
        (db.entities.filter (fun e => e.project_id = project_id)).map
          (fun e => e.id))).isEmpty = false)
    (hfail : env.response = none ∨ env.response = some "") :
    LLMAnalyzer.analyze_project env db project_id = (db, ⟨0, "LLM analysis failed"⟩)
    ∧ (∀ env2 : LlmEnv,
        (LLMAnalyzer.analyze_project env2 db project_id).1 = db
        ∨ ∃ newPatterns : List PatternRow,
            (LLMAnalyzer.analyze_project env2 db project_id).1.patterns
              = db.patterns.filter (fun p => p.project_id ≠ project_id) ++ newPatterns
            ∧ (LLMAnalyzer.analyze_project env2 db project_id).2.patterns_created
              = newPatterns.length) := by
  constructor
  · rcases hfail with hfail | hfail <;>
      simp [LLMAnalyzer.analyze_project, hent, hfind, hfail, String.isEmpty]
  · intro env2
    cases henv : env2.response with
    | none =>
        left
        simp [LLMAnalyzer.analyze_project, hent, hfind, henv]
    | some r =>
        by_cases hr : r.isEmpty
        · left
          simp [LLMAnalyzer.analyze_project, hent, hfind, henv, hr]
        · right
          refine ⟨LLMAnalyzer.parse_and_store_patterns project_id
              ((db.entities.filter (fun e => e.project_id = project_id)).map
                (fun e => e.id)) env2.model_name r, ?_, ?_⟩ <;>
            simp [LLMAnalyzer.analyze_project, hent, hfind, henv, hr]

/-- Witness for C9 at the concrete store `wDb9` with an unavailable
backend. -/
theorem analyze_project_failure_atomic_witness :
    LLMAnalyzer.analyze_project wEnv9 wDb9 "p1" = (wDb9, ⟨0, "LLM analysis failed"⟩)
    ∧ (∀ env2 : LlmEnv,
        (LLMAnalyzer.analyze_project env2 wDb9 "p1").1 = wDb9
        ∨ ∃ newPatterns : List PatternRow,
            (LLMAnalyzer.analyze_project env2 wDb9 "p1").1.patterns
              = wDb9.patterns.filter (fun p => p.project_id ≠ "p1") ++ newPatterns
            ∧ (LLMAnalyzer.analyze_project env2 wDb9 "p1").2.patterns_created
              = newPatterns.length) :=
  analyze_project_failure_atomic wEnv9 wDb9 "p1" (by rfl) (by rfl) (Or.inl rfl)

end OsintTool

